/-
Verification of the tiny-mixtape Spotify request-orchestration layer.

The source of truth is the tRPC router (`spotifyRouter`) defining four
operations: `search`, `getRecommendations`, `getPlaylists` and
`createPlaylist`.  The router's helpers (`range`, `sequentialFetch`,
`calculateAverageAudioFeatures`, `INITIAL_AUDIO_FEATURES`, the HTTP-status
to error-code table, and the Prisma persistence client) live in utility
modules that are not part of the provided sources; those are modelled from
the specification, as marked in their doc comments.

JavaScript numbers are embedded as rationals (ℚ); `Math.floor` becomes
`Int.floor`.  Network and database effects are embedded by passing an
explicit environment of responses, and each operation returns both its
result value and a trace of the requests it issued / records it persisted,
so that claims about "no network call" or "no record persisted" are
statable.
-/
import Mathlib

namespace TinyMixtape

/-- An image object as returned by the upstream API (url, width, height). -/
structure Image where
  url : String
  width : ℕ
  height : ℕ
  deriving Repr, DecidableEq

/-- The audio-feature record: danceability, energy, valence on a 0–100
scale and tempo in BPM.  Field order follows the router's output schema. -/
structure AudioFeatures where
  danceability : ℚ
  energy : ℚ
  tempo : ℚ
  valence : ℚ
  deriving Repr, DecidableEq

/-- Modelled from the spec: `INITIAL_AUDIO_FEATURES` is imported from
`new-playlist-state`, which is not under the provided sources; per the
spec it is the all-zero sentinel record meaning "audio features
unavailable". -/
def INITIAL_AUDIO_FEATURES : AudioFeatures :=
  { danceability := 0, energy := 0, tempo := 0, valence := 0 }

/-- The `error` object of an error-shaped upstream JSON response:
`{ error: { status, message } }`. -/
structure SpotifyErrorBody where
  status : ℕ
  message : String
  deriving Repr, DecidableEq

/-- A thrown `trpc.TRPCError`.  `causeMessages` lists the messages of the
members of an `AggregateError` cause ( `[]` when the cause is absent or
not an aggregate). -/
structure TRPCErrorE where
  code : String
  message : String
  causeMessages : List String
  deriving Repr, DecidableEq

/-- Modelled from the spec: `TRPC_ERROR_CODE_KEY_BY_HTTP_STATUS` is
imported from `trpc-utils`, which is not under the provided sources; per
the spec's error-code mapping table, 401/403 map to permission-denied,
404 to not-found, 429 to rate-limited, 5xx to upstream-unavailable and
anything unmapped to none (the call sites default to internal-error). -/
def TRPC_ERROR_CODE_KEY_BY_HTTP_STATUS (status : ℕ) : Option String :=
  if status = 401 ∨ status = 403 then some "PERMISSION_DENIED"
  else if status = 404 then some "NOT_FOUND"
  else if status = 429 then some "RATE_LIMITED"
  else if 500 ≤ status then some "UPSTREAM_UNAVAILABLE"
  else none

/-- The `${status}! ${message}` formatting used for every upstream error. -/
def formatUpstreamError (e : SpotifyErrorBody) : String :=
  toString e.status ++ "! " ++ e.message

/-- Building a `TRPCError` from an error-shaped upstream response:
status mapped through the table with `?? "INTERNAL_SERVER_ERROR"`. -/
def mapUpstreamError (e : SpotifyErrorBody) : TRPCErrorE :=
  { code := (TRPC_ERROR_CODE_KEY_BY_HTTP_STATUS e.status).getD "INTERNAL_SERVER_ERROR",
    message := formatUpstreamError e,
    causeMessages := [] }

/-- Modelled from the spec: `range` is imported from `utils/array`, which
is not under the provided sources.  From its uses (`range(0, n-1, step)`
producing the batch start offsets) and the spec's batching description it
enumerates `start, start+step, start+2*step, …` up to and including
`stop`. -/
def range (start stop step : ℕ) : List ℕ :=
  if stop < start then []
  else (List.range ((stop - start) / step + 1)).map (fun i => start + i * step)

/-- Modelled from the spec: `sequentialFetch` is imported from
`utils/fetch`, which is not under the provided sources.  Per §4.1 it
executes the request descriptors sequentially in input order and returns
the parsed body of each, in the same order, including error-shaped
bodies, without short-circuiting.  The network is abstracted as an oracle
giving the parsed body of the i-th request. -/
def sequentialFetch (numConfigs : ℕ) (respond : ℕ → α) : List α :=
  (List.range numConfigs).map respond

/-- A raw track object from a search / recommendations upstream response
(the fields the router reads). -/
structure RawTrack where
  id : String
  uri : String
  name : String
  artistNames : List String
  preview_url : Option String
  albumName : String
  albumImages : List Image
  duration_ms : ℕ
  deriving Repr, DecidableEq

/-- The internal track shape produced by the router (output schema
`PlaylistTracksSchema`): search leaves `audioFeatures` absent,
recommendations spread a features record in. -/
structure PlaylistTrack where
  id : String
  uri : String
  name : String
  artists : List String
  previewUrl : Option String
  albumName : String
  image : Option Image
  duration : ℕ
  audioFeatures : Option AudioFeatures
  deriving Repr, DecidableEq

/-- The normalization both `search` and `getRecommendations` perform on a
raw track: names of artists only, last album image (`images.at(-1)`),
duration from `duration_ms`. -/
def normalizeTrack (item : RawTrack) (features : Option AudioFeatures) : PlaylistTrack :=
  { id := item.id,
    uri := item.uri,
    name := item.name,
    artists := item.artistNames,
    previewUrl := item.preview_url,
    albumName := item.albumName,
    image := item.albumImages.getLast?,
    duration := item.duration_ms,
    audioFeatures := features }

/-! ### search -/

/-- Input of the `search` query (zod: `q`, `offset` 0–1000, `limit` 0–50). -/
structure SearchInput where
  q : String
  offset : ℕ
  limit : ℕ
  deriving Repr, DecidableEq

/-- The search request descriptor the router builds (the
`URLSearchParams` of the `/search` URL). -/
structure SearchRequest where
  q : String
  searchType : String
  offset : ℕ
  limit : ℕ
  deriving Repr, DecidableEq

/-- Environment of one `search` resolve: the parsed body the `/search`
fetch would return — either an error-shaped body or `tracks.items`. -/
structure SearchEnv where
  searchRes : Except SpotifyErrorBody (List RawTrack)

/-- Result of one `search` resolve: the returned value or thrown error,
plus the trace of network requests issued. -/
structure SearchOutcome where
  result : Except TRPCErrorE (List PlaylistTrack)
  requests : List SearchRequest
  deriving Repr

/-- The blank test `!input.q.trim()`: a string trims to the empty string
exactly when every one of its characters is whitespace. -/
def isBlank (s : String) : Bool :=
  s.data.all (fun c => c.isWhitespace)

/-- The `search` resolver: blank query short-circuits to `[]` before the
fetch; an error-shaped response throws the mapped error; zero items
throws NOT_FOUND; otherwise the items are normalized. -/
def search (input : SearchInput) (env : SearchEnv) : SearchOutcome :=
  if isBlank input.q then
    { result := .ok [], requests := [] }
  else
    let req : SearchRequest :=
      { q := input.q, searchType := "track", offset := input.offset, limit := input.limit }
    match env.searchRes with
    | .error e => { result := .error (mapUpstreamError e), requests := [req] }
    | .ok items =>
      if items.length = 0 then
        { result := .error { code := "NOT_FOUND", message := "No tracks found", causeMessages := [] },
          requests := [req] }
      else
        { result := .ok (items.map (fun item => normalizeTrack item none)), requests := [req] }

/-- C9: for every search call whose query is empty or whitespace-only,
the operation returns the empty track list and issues no network
request. -/
theorem search_blank_query_short_circuits (input : SearchInput) (env : SearchEnv)
    (hq : isBlank input.q = true) :
    (search input env).result = .ok [] ∧ (search input env).requests = [] := by
  simp [search, hq]

/-- Witness for C9 at a whitespace-only query. -/
theorem search_blank_query_short_circuits_witness :
    (search { q := "   ", offset := 0, limit := 5 }
        { searchRes := .ok [] }).result = .ok [] ∧
    (search { q := "   ", offset := 0, limit := 5 }
        { searchRes := .ok [] }).requests = [] :=
  search_blank_query_short_circuits _ _ (by decide)

/-! ### getRecommendations -/

/-- Input of the `getRecommendations` query (zod: at most 5 seeds, limit
1–100, optional targets; danceability/valence/energy 0–100). -/
structure RecommendationsInput where
  trackSeeds : List String
  limit : ℕ
  danceability : Option ℚ
  tempo : Option ℚ
  valence : Option ℚ
  energy : Option ℚ
  deriving Repr

/-- The recommendations request the router builds: seeds and limit, plus
the optional target parameters appended in source order. -/
structure RecommendationsRequest where
  seed_tracks : List String
  limit : ℕ
  targetParams : List (String × ℚ)
  deriving Repr

/-- The `searchParams` construction of the recommendations fetch: each
provided bounded target is appended divided by 100, a provided tempo is
appended unscaled, an omitted target is not appended. -/
def recommendationRequest (input : RecommendationsInput) : RecommendationsRequest :=
  { seed_tracks := input.trackSeeds,
    limit := input.limit,
    targetParams :=
      (match input.danceability with
        | some d => [("target_danceability", d / 100)]
        | none => [])
      ++ (match input.tempo with
        | some t => [("target_tempo", t)]
        | none => [])
      ++ (match input.valence with
        | some v => [("target_valence", v / 100)]
        | none => [])
      ++ (match input.energy with
        | some e => [("target_energy", e / 100)]
        | none => []) }

/-- An entry of the upstream `audio_features` array: 0–1 floats for the
bounded features, BPM tempo. -/
structure RawAudioFeatures where
  danceability : ℚ
  tempo : ℚ
  valence : ℚ
  energy : ℚ
  deriving Repr, DecidableEq

/-- The per-track feature scaling of the recommendations resolver:
`Math.floor(x * 100)` for danceability, valence and energy; tempo passed
through. -/
def scaledAudioFeatures (raw : RawAudioFeatures) : AudioFeatures :=
  { danceability := (Int.floor (raw.danceability * 100) : ℤ),
    energy := (Int.floor (raw.energy * 100) : ℤ),
    tempo := raw.tempo,
    valence := (Int.floor (raw.valence * 100) : ℤ) }

/-- Environment of one `getRecommendations` resolve: the parsed body of
the `/recommendations` fetch (error or `tracks`), and the parsed body of
the follow-up `/audio-features` fetch (error or `audio_features`,
indexed in parallel with the tracks). -/
structure RecommendationsEnv where
  recommendationsRes : Except SpotifyErrorBody (List RawTrack)
  audioFeaturesRes : Except SpotifyErrorBody (List RawAudioFeatures)

/-- The `getRecommendations` resolver: no seeds short-circuits to `[]`;
an error-shaped recommendations response throws the mapped error; then
one bulk audio-features lookup, whose error-shaped response degrades
every track to the all-zero sentinel features instead of failing
(`hasAudioFeatures`); otherwise track `i` gets the scaled features at
index `i` of the parallel array. -/
def getRecommendations (input : RecommendationsInput) (env : RecommendationsEnv) :
    Except TRPCErrorE (List PlaylistTrack) :=
  if input.trackSeeds.isEmpty then .ok []
  else
    match env.recommendationsRes with
    | .error e => .error (mapUpstreamError e)
    | .ok tracks =>
      let featuresAt : ℕ → AudioFeatures :=
        match env.audioFeaturesRes with
        | .error _ => fun _ => INITIAL_AUDIO_FEATURES
        | .ok afs => fun i =>
            scaledAudioFeatures
              (afs.getD i { danceability := 0, tempo := 0, valence := 0, energy := 0 })
      .ok (tracks.enum.map (fun p => normalizeTrack p.2 (some (featuresAt p.1))))

/-- C5: when the recommendations fetch succeeds but the bulk
audio-features lookup returns an error-shaped response, the operation
still succeeds and returns every recommended track, each carrying the
all-zero sentinel features. -/
theorem getRecommendations_degrades_on_audio_features_error
    (input : RecommendationsInput) (env : RecommendationsEnv)
    (tracks : List RawTrack) (e : SpotifyErrorBody)
    (hseeds : input.trackSeeds ≠ [])
    (hrec : env.recommendationsRes = .ok tracks)
    (haf : env.audioFeaturesRes = .error e) :
    getRecommendations input env =
      .ok (tracks.map (fun tr => normalizeTrack tr (some INITIAL_AUDIO_FEATURES))) ∧
    ∃ l, getRecommendations input env = .ok l ∧ l.length = tracks.length ∧
      ∀ t ∈ l, t.audioFeatures = some INITIAL_AUDIO_FEATURES := by
  have hne : input.trackSeeds.isEmpty = false := by
    cases h : input.trackSeeds with
    | nil => exact absurd h hseeds
    | cons a l => simp [List.isEmpty]
  have hmap : tracks.enum.map
      (fun p : ℕ × RawTrack => normalizeTrack p.2 (some INITIAL_AUDIO_FEATURES)) =
      tracks.map (fun tr => normalizeTrack tr (some INITIAL_AUDIO_FEATURES)) := by
    conv_rhs => rw [← List.enum_map_snd tracks]
    rw [List.map_map]
    rfl
  constructor
  · simp only [getRecommendations, hne, hrec, haf, Bool.false_eq_true, if_false]
    rw [hmap]
  · refine ⟨tracks.map (fun tr => normalizeTrack tr (some INITIAL_AUDIO_FEATURES)), ?_, ?_, ?_⟩
    · simp only [getRecommendations, hne, hrec, haf, Bool.false_eq_true, if_false]
      rw [hmap]
    · simp
    · intro t ht
      simp only [List.mem_map] at ht
      obtain ⟨tr, _, rfl⟩ := ht
      rfl

/-- Witness for C5: one seed, one recommended track, failing
audio-features lookup. -/
theorem getRecommendations_degrades_on_audio_features_error_witness :
    getRecommendations
        { trackSeeds := ["seed1"], limit := 1, danceability := none, tempo := none,
          valence := none, energy := none }
        { recommendationsRes := .ok
            [{ id := "t1", uri := "spotify:track:t1", name := "Song",
               artistNames := ["Artist"], preview_url := none, albumName := "Album",
               albumImages := [], duration_ms := 1000 }],
          audioFeaturesRes := .error { status := 429, message := "rate limited" } } =
      .ok [normalizeTrack
            { id := "t1", uri := "spotify:track:t1", name := "Song",
              artistNames := ["Artist"], preview_url := none, albumName := "Album",
              albumImages := [], duration_ms := 1000 }
            (some INITIAL_AUDIO_FEATURES)] := by
  exact (getRecommendations_degrades_on_audio_features_error
    { trackSeeds := ["seed1"], limit := 1, danceability := none, tempo := none,
      valence := none, energy := none }
    { recommendationsRes := .ok
        [{ id := "t1", uri := "spotify:track:t1", name := "Song",
           artistNames := ["Artist"], preview_url := none, albumName := "Album",
           albumImages := [], duration_ms := 1000 }],
      audioFeaturesRes := .error { status := 429, message := "rate limited" } }
    [{ id := "t1", uri := "spotify:track:t1", name := "Song",
       artistNames := ["Artist"], preview_url := none, albumName := "Album",
       albumImages := [], duration_ms := 1000 }]
    { status := 429, message := "rate limited" }
    (by decide) rfl rfl).1

/-- C7: every provided bounded target (danceability, valence, energy in
0–100) appears in the built recommendations request divided by 100, a
provided tempo appears unscaled, and an omitted target is absent from
the request. -/
theorem recommendationRequest_scales_targets (input : RecommendationsInput) :
    (∀ d, input.danceability = some d → 0 ≤ d → d ≤ 100 →
        ("target_danceability", d / 100) ∈ (recommendationRequest input).targetParams) ∧
    (∀ t, input.tempo = some t →
        ("target_tempo", t) ∈ (recommendationRequest input).targetParams) ∧
    (∀ v, input.valence = some v → 0 ≤ v → v ≤ 100 →
        ("target_valence", v / 100) ∈ (recommendationRequest input).targetParams) ∧
    (∀ e, input.energy = some e → 0 ≤ e → e ≤ 100 →
        ("target_energy", e / 100) ∈ (recommendationRequest input).targetParams) ∧
    (input.danceability = none →
        ∀ q, ("target_danceability", q) ∉ (recommendationRequest input).targetParams) ∧
    (input.tempo = none →
        ∀ q, ("target_tempo", q) ∉ (recommendationRequest input).targetParams) ∧
    (input.valence = none →
        ∀ q, ("target_valence", q) ∉ (recommendationRequest input).targetParams) ∧
    (input.energy = none →
        ∀ q, ("target_energy", q) ∉ (recommendationRequest input).targetParams) := by
  obtain ⟨seeds, lim, od, ot, ov, oe⟩ := input
  refine ⟨?_, ?_, ?_, ?_, ?_, ?_, ?_, ?_⟩ <;>
    · intro x hx
      intros
      cases od <;> cases ot <;> cases ov <;> cases oe <;>
        simp_all [recommendationRequest]

/-- Witness for C7: danceability 50 appears as 1/2, tempo 120 unscaled,
valence omitted stays absent. -/
theorem recommendationRequest_scales_targets_witness :
    (("target_danceability", (50 : ℚ) / 100) ∈
      (recommendationRequest
        { trackSeeds := ["s"], limit := 10, danceability := some 50,
          tempo := some 120, valence := none, energy := some 100 }).targetParams) ∧
    (("target_tempo", (120 : ℚ)) ∈
      (recommendationRequest
        { trackSeeds := ["s"], limit := 10, danceability := some 50,
          tempo := some 120, valence := none, energy := some 100 }).targetParams) ∧
    (∀ q, ("target_valence", q) ∉
      (recommendationRequest
        { trackSeeds := ["s"], limit := 10, danceability := some 50,
          tempo := some 120, valence := none, energy := some 100 }).targetParams) :=
  ⟨(recommendationRequest_scales_targets _).1 50 rfl (by norm_num) (by norm_num),
   (recommendationRequest_scales_targets _).2.1 120 rfl,
   (recommendationRequest_scales_targets _).2.2.2.2.2.2.1 rfl⟩

/-- C8: on a successful audio-features lookup, the track at index `i`
carries danceability, energy and valence equal to the upstream 0–1 value
multiplied by 100 and floored, and tempo passed through unscaled. -/
theorem getRecommendations_floors_scaled_features
    (input : RecommendationsInput) (env : RecommendationsEnv)
    (tracks : List RawTrack) (afs : List RawAudioFeatures)
    (i : ℕ) (track : RawTrack) (raw : RawAudioFeatures)
    (hseeds : input.trackSeeds ≠ [])
    (hrec : env.recommendationsRes = .ok tracks)
    (haf : env.audioFeaturesRes = .ok afs)
    (ht : tracks[i]? = some track)
    (hr : afs[i]? = some raw) :
    ∃ l t, getRecommendations input env = .ok l ∧ l[i]? = some t ∧
      t.audioFeatures = some
        { danceability := (Int.floor (raw.danceability * 100) : ℤ),
          energy := (Int.floor (raw.energy * 100) : ℤ),
          tempo := raw.tempo,
          valence := (Int.floor (raw.valence * 100) : ℤ) } := by
  have hne : input.trackSeeds.isEmpty = false := by
    cases h : input.trackSeeds with
    | nil => exact absurd h hseeds
    | cons a l => simp [List.isEmpty]
  refine ⟨tracks.enum.map (fun p => normalizeTrack p.2
      (some (scaledAudioFeatures
        (afs.getD p.1 { danceability := 0, tempo := 0, valence := 0, energy := 0 })))),
    normalizeTrack track (some (scaledAudioFeatures raw)), ?_, ?_, ?_⟩
  · simp only [getRecommendations, hne, hrec, haf, Bool.false_eq_true, if_false]
  · rw [List.getElem?_map, List.getElem?_enum, ht]
    simp [hr]
  · rfl

/-- Witness for C8: upstream danceability 0.567 maps to 56. -/
theorem getRecommendations_floors_scaled_features_witness :
    ∃ l t, getRecommendations
        { trackSeeds := ["seed1"], limit := 1, danceability := none, tempo := none,
          valence := none, energy := none }
        { recommendationsRes := .ok
            [{ id := "t1", uri := "spotify:track:t1", name := "Song",
               artistNames := ["Artist"], preview_url := none, albumName := "Album",
               albumImages := [], duration_ms := 1000 }],
          audioFeaturesRes := .ok
            [{ danceability := 567/1000, tempo := 120, valence := 1/2, energy := 9/10 }] } =
        .ok l ∧ l[0]? = some t ∧
      t.audioFeatures = some
        { danceability := 56, energy := 90, tempo := 120, valence := 50 } := by
  obtain ⟨l, t, h1, h2, h3⟩ :=
    getRecommendations_floors_scaled_features
      { trackSeeds := ["seed1"], limit := 1, danceability := none, tempo := none,
        valence := none, energy := none }
      { recommendationsRes := .ok
          [{ id := "t1", uri := "spotify:track:t1", name := "Song",
             artistNames := ["Artist"], preview_url := none, albumName := "Album",
             albumImages := [], duration_ms := 1000 }],
        audioFeaturesRes := .ok
          [{ danceability := 567/1000, tempo := 120, valence := 1/2, energy := 9/10 }] }
      _ _ 0 _ _ (by decide) rfl rfl rfl rfl
  refine ⟨l, t, h1, h2, ?_⟩
  rw [h3]
  norm_num

/-! ### calculateAverageAudioFeatures -/

/-- Modelled from the spec: `calculateAverageAudioFeatures` is imported
from `utils/audio-features`, which is not under the provided sources.
Per §4.2 it is pure and returns the element-wise arithmetic mean of the
input records, and for the empty list the all-zero sentinel rather than
a NaN-valued record. -/
def calculateAverageAudioFeatures (l : List AudioFeatures) : AudioFeatures :=
  if l.isEmpty then INITIAL_AUDIO_FEATURES
  else
    { danceability := (l.map (fun af => af.danceability)).sum / l.length,
      energy := (l.map (fun af => af.energy)).sum / l.length,
      tempo := (l.map (fun af => af.tempo)).sum / l.length,
      valence := (l.map (fun af => af.valence)).sum / l.length }

/-- C4: on a non-empty list the aggregator returns the arithmetic mean
of every field; on the empty list it returns the all-zero sentinel. -/
theorem calculateAverageAudioFeatures_is_mean (l : List AudioFeatures) :
    (l ≠ [] →
      (calculateAverageAudioFeatures l).danceability =
        (l.map (fun af => af.danceability)).sum / l.length ∧
      (calculateAverageAudioFeatures l).energy =
        (l.map (fun af => af.energy)).sum / l.length ∧
      (calculateAverageAudioFeatures l).tempo =
        (l.map (fun af => af.tempo)).sum / l.length ∧
      (calculateAverageAudioFeatures l).valence =
        (l.map (fun af => af.valence)).sum / l.length) ∧
    (l = [] → calculateAverageAudioFeatures l = INITIAL_AUDIO_FEATURES) := by
  constructor
  · intro hne
    have h : l.isEmpty = false := by
      cases l with
      | nil => exact absurd rfl hne
      | cons a t => simp [List.isEmpty]
    simp [calculateAverageAudioFeatures, h]
  · intro he
    subst he
    rfl

/-- Witness for C4: the mean of two records, and the empty list. -/
theorem calculateAverageAudioFeatures_is_mean_witness :
    (calculateAverageAudioFeatures
      [{ danceability := 10, energy := 20, tempo := 120, valence := 30 },
       { danceability := 20, energy := 40, tempo := 130, valence := 50 }]).danceability = 15 ∧
    calculateAverageAudioFeatures [] = INITIAL_AUDIO_FEATURES := by
  refine ⟨?_, (calculateAverageAudioFeatures_is_mean []).2 rfl⟩
  have h := (calculateAverageAudioFeatures_is_mean
    [{ danceability := 10, energy := 20, tempo := 120, valence := 30 },
     { danceability := 20, energy := 40, tempo := 130, valence := 50 }]).1 (by decide)
  rw [h.1]
  norm_num

/-! ### createPlaylist -/

/-- Input of the `createPlaylist` mutation (zod: at least one uri). -/
structure CreatePlaylistInput where
  uris : List String
  name : String
  isPublic : Bool
  description : String
  deriving Repr, DecidableEq

/-- The JSON body of one add-tracks request:
`{ position, uris: input.uris.slice(position, position + 100) }`. -/
structure AddTracksRequestBody where
  position : ℕ
  uris : List String
  deriving Repr, DecidableEq

/-- The Prisma `playlist` row: internal playlist id mapped to the
upstream playlist id and the creating user. -/
structure PlaylistOwnershipRecord where
  spotifyId : String
  createdBy : String
  deriving Repr, DecidableEq

/-- Modelled from the spec: the Prisma persistence client is not under
the provided sources.  The outcome of `prisma.playlist.create`: success,
a thrown `Prisma.PrismaClientKnownRequestError` (the class the source
singles out — the spec's persistence-conflict kind, since the store's
insert fails on a duplicate upstream id), or any other thrown error. -/
inductive PersistOutcome where
  | ok
  | knownRequestError
  | otherError
  deriving Repr, DecidableEq

/-- Environment of one `createPlaylist` resolve: the session user, the
parsed body of the create-playlist fetch (error or the new playlist id),
the `error` field of the parsed body of the i-th add-tracks request
(`none` for a success body), and the persistence outcome. -/
structure CreatePlaylistEnv where
  userId : String
  createPlaylistRes : Except SpotifyErrorBody String
  addTracksRes : ℕ → Option SpotifyErrorBody
  persistRes : PersistOutcome

/-- The success value of `createPlaylist`. -/
structure CreatePlaylistOutput where
  name : String
  url : String
  deriving Repr, DecidableEq

/-- Result of one `createPlaylist` resolve: the returned value or thrown
error, the add-tracks request bodies issued, the ownership records
persisted, and the upstream DELETE requests issued (always none: the
source never rolls the created playlist back). -/
structure CreatePlaylistResult where
  result : Except TRPCErrorE CreatePlaylistOutput
  addTrackRequests : List AddTracksRequestBody
  persisted : List PlaylistOwnershipRecord
  deleteRequests : List String

/-- The canonical shareable URL
`https://open.spotify.com/playlist/${id}` built from a playlist id. -/
def playlistUrlOf (playlistId : String) : String :=
  "https://open.spotify.com/playlist/" ++ playlistId

/-- The number of add-tracks batches `createPlaylist` issues for its
input. -/
def numBatches (input : CreatePlaylistInput) : ℕ :=
  (range 0 (input.uris.length - 1) 100).length

/-- The `createPlaylist` resolver: create the upstream playlist (mapped
error on rejection); add tracks in batches of up to 100 at positions
`range(0, uris.length - 1, 100)` via `sequentialFetch`; if any batch
body is error-shaped, throw an aggregate INTERNAL_SERVER_ERROR naming
every batch error and pointing at the playlist URL (no rollback, nothing
persisted); otherwise persist the ownership record, where a thrown
`PrismaClientKnownRequestError` is reported with the same URL and any
other persistence error is swallowed. -/
def createPlaylist (input : CreatePlaylistInput) (env : CreatePlaylistEnv) :
    CreatePlaylistResult :=
  match env.createPlaylistRes with
  | .error e =>
      { result := .error (mapUpstreamError e),
        addTrackRequests := [], persisted := [], deleteRequests := [] }
  | .ok playlistId =>
    let playlistUrl := playlistUrlOf playlistId
    let positions := range 0 (input.uris.length - 1) 100
    let configs : List AddTracksRequestBody := positions.map (fun position =>
      { position := position, uris := (input.uris.drop position).take 100 })
    let addTracksToPlaylistJson := sequentialFetch configs.length env.addTracksRes
    let addTracksToPlaylistErrors := addTracksToPlaylistJson.filterMap (fun json => json)
    { result :=
        if 0 < addTracksToPlaylistErrors.length then
          .error
            { code := "INTERNAL_SERVER_ERROR",
              message := "Some tracks were not added to the playlist on Spotify. Visit "
                ++ playlistUrl ++ " to manually add the tracks.",
              causeMessages := addTracksToPlaylistErrors.map formatUpstreamError }
        else
          match env.persistRes with
          | .ok => .ok { name := input.name, url := playlistUrl }
          | .knownRequestError =>
              .error
                { code := "INTERNAL_SERVER_ERROR",
                  message := "Unable to save playlist " ++ input.name
                    ++ " to the database, but the it's available at " ++ playlistUrl ++ ".",
                  causeMessages := [] }
          | .otherError => .ok { name := input.name, url := playlistUrl },
      addTrackRequests := configs,
      persisted :=
        if 0 < addTracksToPlaylistErrors.length then []
        else
          match env.persistRes with
          | .ok => [{ spotifyId := playlistId, createdBy := env.userId }]
          | .knownRequestError => []
          | .otherError => [],
      deleteRequests := [] }

/-- The start offsets `range(0, n-1, 100)` are exactly the multiples of
100 below `n` (for `n ≥ 1`). -/
theorem mem_range_batch (n p : ℕ) (hn : 1 ≤ n) :
    p ∈ range 0 (n - 1) 100 ↔ p % 100 = 0 ∧ p < n := by
  have hguard : ¬ (n - 1 < 0) := Nat.not_lt_zero _
  simp only [range, if_neg hguard, List.mem_map, List.mem_range, Nat.sub_zero, Nat.zero_add]
  constructor
  · rintro ⟨i, hi, rfl⟩
    exact ⟨Nat.mul_mod_left i 100, by omega⟩
  · rintro ⟨hmod, hlt⟩
    exact ⟨p / 100, by omega, by omega⟩

/-- Concatenating consecutive 100-element slices recovers a prefix. -/
theorem flatten_slices (l : List α) (k : ℕ) :
    ((List.range k).map (fun i => ((l.drop (i * 100)).take 100))).flatten = l.take (k * 100) := by
  induction k with
  | zero => simp
  | succ k ih =>
    rw [List.range_succ, List.map_append, List.flatten_append, ih, Nat.succ_mul, List.take_add]
    simp

/-- The add-tracks request bodies built by a `createPlaylist` whose
upstream create succeeded. -/
theorem createPlaylist_addTrackRequests
    (input : CreatePlaylistInput) (env : CreatePlaylistEnv) (playlistId : String)
    (hc : env.createPlaylistRes = .ok playlistId) :
    (createPlaylist input env).addTrackRequests =
      (range 0 (input.uris.length - 1) 100).map (fun position =>
        { position := position, uris := (input.uris.drop position).take 100 }) := by
  simp only [createPlaylist, hc]

/-- C2: for `n ≥ 1` input uris the add-tracks requests are issued for
start offsets exactly the multiples of 100 below `n`, in increasing
order `0, 100, 200, …`; each body carries its start offset as `position`
and the uris slice `[offset, offset+100)`; and the batch bodies
partition the input uris in order. -/
theorem createPlaylist_batches
    (input : CreatePlaylistInput) (env : CreatePlaylistEnv) (playlistId : String)
    (hc : env.createPlaylistRes = .ok playlistId)
    (hn : 1 ≤ input.uris.length) :
    (∀ p, p ∈ (createPlaylist input env).addTrackRequests.map (fun r => r.position) ↔
        p % 100 = 0 ∧ p < input.uris.length) ∧
    ((createPlaylist input env).addTrackRequests.map (fun r => r.position) =
      (List.range ((input.uris.length - 1) / 100 + 1)).map (fun i => i * 100)) ∧
    (∀ r ∈ (createPlaylist input env).addTrackRequests,
        r.uris = (input.uris.drop r.position).take 100) ∧
    ((createPlaylist input env).addTrackRequests.map (fun r => r.uris)).flatten =
      input.uris := by
  rw [createPlaylist_addTrackRequests input env playlistId hc]
  have hguard : ¬ (input.uris.length - 1 < 0) := Nat.not_lt_zero _
  have hpos : (range 0 (input.uris.length - 1) 100).map (fun p => p) =
      range 0 (input.uris.length - 1) 100 := List.map_id _
  refine ⟨?_, ?_, ?_, ?_⟩
  · intro p
    rw [List.map_map]
    have : ((fun r : AddTracksRequestBody => r.position) ∘ fun position =>
        { position := position, uris := (input.uris.drop position).take 100 }) =
        fun p : ℕ => p := rfl
    rw [this, hpos]
    exact mem_range_batch input.uris.length p hn
  · rw [List.map_map]
    have : ((fun r : AddTracksRequestBody => r.position) ∘ fun position =>
        { position := position, uris := (input.uris.drop position).take 100 }) =
        fun p : ℕ => p := rfl
    rw [this, hpos]
    simp only [range, if_neg hguard, Nat.sub_zero, Nat.zero_add]
  · intro r hr
    rw [List.mem_map] at hr
    obtain ⟨position, _, rfl⟩ := hr
    rfl
  · rw [List.map_map]
    have : ((fun r : AddTracksRequestBody => r.uris) ∘ fun position =>
        { position := position, uris := (input.uris.drop position).take 100 }) =
        fun position : ℕ => (input.uris.drop position).take 100 := rfl
    rw [this]
    simp only [range, if_neg hguard, Nat.sub_zero, Nat.zero_add, List.map_map]
    have h2 : ((fun position : ℕ => (input.uris.drop position).take 100) ∘ fun i => i * 100) =
        fun i : ℕ => (input.uris.drop (i * 100)).take 100 := rfl
    rw [h2, flatten_slices]
    apply List.take_of_length_le
    omega

/-- Witness for C2 at 150 uris: exactly two batches, positions 0 and
100, whose bodies partition the input. -/
theorem createPlaylist_batches_witness :
    ((createPlaylist
        { uris := List.replicate 150 "spotify:track:x", name := "mix", isPublic := true,
          description := "" }
        { userId := "user1", createPlaylistRes := .ok "p1",
          addTracksRes := fun _ => none, persistRes := .ok }).addTrackRequests.map
      (fun r => r.position) = [0, 100]) ∧
    (((createPlaylist
        { uris := List.replicate 150 "spotify:track:x", name := "mix", isPublic := true,
          description := "" }
        { userId := "user1", createPlaylistRes := .ok "p1",
          addTracksRes := fun _ => none, persistRes := .ok }).addTrackRequests.map
      (fun r => r.uris)).flatten = List.replicate 150 "spotify:track:x") := by
  have h := createPlaylist_batches
    { uris := List.replicate 150 "spotify:track:x", name := "mix", isPublic := true,
      description := "" }
    { userId := "user1", createPlaylistRes := .ok "p1",
      addTracksRes := fun _ => none, persistRes := .ok }
    "p1" rfl (by simp)
  refine ⟨?_, h.2.2.2⟩
  rw [h.2.1]
  simp [List.length_replicate]
  decide

/-- C1: when the upstream create succeeded but at least one add-tracks
batch body is error-shaped, `createPlaylist` fails with an
INTERNAL_SERVER_ERROR whose aggregate cause names every failed batch's
underlying error, whose message includes the playlist URL
`https://open.spotify.com/playlist/<id>`, while no ownership record is
persisted and no rollback request is issued. -/
theorem createPlaylist_partial_write_failure
    (input : CreatePlaylistInput) (env : CreatePlaylistEnv) (playlistId : String)
    (i : ℕ) (e : SpotifyErrorBody)
    (hc : env.createPlaylistRes = .ok playlistId)
    (hi : i < numBatches input)
    (he : env.addTracksRes i = some e) :
    ∃ err, (createPlaylist input env).result = .error err ∧
      err.code = "INTERNAL_SERVER_ERROR" ∧
      err.message = "Some tracks were not added to the playlist on Spotify. Visit "
        ++ playlistUrlOf playlistId ++ " to manually add the tracks." ∧
      err.causeMessages =
        ((sequentialFetch (numBatches input) env.addTracksRes).filterMap
          (fun json => json)).map formatUpstreamError ∧
      (∀ j e2, j < numBatches input → env.addTracksRes j = some e2 →
        formatUpstreamError e2 ∈ err.causeMessages) ∧
      (createPlaylist input env).persisted = [] ∧
      (createPlaylist input env).deleteRequests = [] := by
  have hlen : ((range 0 (input.uris.length - 1) 100).map
      (fun position : ℕ =>
        ({ position := position,
           uris := (input.uris.drop position).take 100 } : AddTracksRequestBody))).length =
      numBatches input := by
    rw [List.length_map]
    rfl
  have hmem : e ∈ (sequentialFetch (numBatches input) env.addTracksRes).filterMap
      (fun json => json) := by
    apply List.mem_filterMap.mpr
    exact ⟨some e, List.mem_map.mpr ⟨i, List.mem_range.mpr hi, he⟩, rfl⟩
  have herrpos : 0 < ((sequentialFetch (numBatches input) env.addTracksRes).filterMap
      (fun json => json)).length :=
    List.length_pos.mpr (List.ne_nil_of_mem hmem)
  refine ⟨{ code := "INTERNAL_SERVER_ERROR",
            message := "Some tracks were not added to the playlist on Spotify. Visit "
              ++ playlistUrlOf playlistId ++ " to manually add the tracks.",
            causeMessages := ((sequentialFetch (numBatches input) env.addTracksRes).filterMap
              (fun json => json)).map formatUpstreamError },
    ?_, rfl, rfl, rfl, ?_, ?_, ?_⟩
  · simp only [createPlaylist, hc, hlen, if_pos herrpos]
  · intro j e2 hj he2
    apply List.mem_map.mpr
    refine ⟨e2, ?_, rfl⟩
    apply List.mem_filterMap.mpr
    exact ⟨some e2, List.mem_map.mpr ⟨j, List.mem_range.mpr hj, he2⟩, rfl⟩
  · simp only [createPlaylist, hc, hlen, if_pos herrpos]
  · simp only [createPlaylist, hc]

set_option maxRecDepth 4000 in
/-- Witness for C1: two batches, the second failing; the aggregate names
the failing batch's error, the message carries the URL, nothing is
persisted. -/
theorem createPlaylist_partial_write_failure_witness :
    ∃ err, (createPlaylist
        { uris := List.replicate 150 "spotify:track:x", name := "mix", isPublic := true,
          description := "" }
        { userId := "user1", createPlaylistRes := .ok "p1",
          addTracksRes := fun i => if i = 1 then some { status := 502, message := "bad gateway" } else none,
          persistRes := .ok }).result = .error err ∧
      err.code = "INTERNAL_SERVER_ERROR" ∧
      err.message = "Some tracks were not added to the playlist on Spotify. Visit https://open.spotify.com/playlist/p1 to manually add the tracks." ∧
      err.causeMessages = ["502! bad gateway"] ∧
      (createPlaylist
        { uris := List.replicate 150 "spotify:track:x", name := "mix", isPublic := true,
          description := "" }
        { userId := "user1", createPlaylistRes := .ok "p1",
          addTracksRes := fun i => if i = 1 then some { status := 502, message := "bad gateway" } else none,
          persistRes := .ok }).persisted = [] := by
  obtain ⟨err, h1, h2, h3, h4, _, h6, _⟩ :=
    createPlaylist_partial_write_failure
      { uris := List.replicate 150 "spotify:track:x", name := "mix", isPublic := true,
        description := "" }
      { userId := "user1", createPlaylistRes := .ok "p1",
        addTracksRes := fun i => if i = 1 then some { status := 502, message := "bad gateway" } else none,
        persistRes := .ok }
      "p1" 1 { status := 502, message := "bad gateway" } rfl (by decide) rfl
  refine ⟨err, h1, h2, ?_, ?_, h6⟩
  · rw [h3]
    rfl
  · rw [h4]
    rfl

/-- C6: when the upstream create and every add-tracks batch succeeded
but persisting the ownership record throws, `createPlaylist` swallows
the failure and returns the name and URL as success — except a thrown
`PrismaClientKnownRequestError`, which is surfaced as an error whose
message states the playlist is still available at its URL. -/
theorem createPlaylist_persistence_failure
    (input : CreatePlaylistInput) (env : CreatePlaylistEnv) (playlistId : String)
    (hc : env.createPlaylistRes = .ok playlistId)
    (hok : ∀ i, i < numBatches input → env.addTracksRes i = none) :
    (env.persistRes = .otherError →
      (createPlaylist input env).result =
        .ok { name := input.name, url := playlistUrlOf playlistId }) ∧
    (env.persistRes = .ok →
      (createPlaylist input env).result =
        .ok { name := input.name, url := playlistUrlOf playlistId }) ∧
    (env.persistRes = .knownRequestError →
      (createPlaylist input env).result =
        .error
          { code := "INTERNAL_SERVER_ERROR",
            message := "Unable to save playlist " ++ input.name
              ++ " to the database, but the it's available at "
              ++ playlistUrlOf playlistId ++ ".",
            causeMessages := [] }) := by
  have hlen : ((range 0 (input.uris.length - 1) 100).map
      (fun position : ℕ =>
        ({ position := position,
           uris := (input.uris.drop position).take 100 } : AddTracksRequestBody))).length =
      numBatches input := by
    rw [List.length_map]
    rfl
  have hnil : (sequentialFetch (numBatches input) env.addTracksRes).filterMap
      (fun json => json) = [] := by
    apply List.filterMap_eq_nil_iff.mpr
    intro a ha
    simp only [sequentialFetch, List.mem_map, List.mem_range] at ha
    obtain ⟨j, hj, rfl⟩ := ha
    exact hok j hj
  have hnpos : ¬ 0 < ((sequentialFetch (numBatches input) env.addTracksRes).filterMap
      (fun json => json)).length := by
    rw [hnil]
    exact Nat.not_lt_zero 0
  refine ⟨?_, ?_, ?_⟩ <;>
    · intro hp
      simp only [createPlaylist, hc, hlen, if_neg hnpos, hp]

/-- Witness for C6: one successful batch; a known-request persistence
error is surfaced with the URL in the message, any other persistence
error is swallowed into success. -/
theorem createPlaylist_persistence_failure_witness :
    (createPlaylist
        { uris := ["spotify:track:x"], name := "mix", isPublic := false, description := "" }
        { userId := "user1", createPlaylistRes := .ok "p1",
          addTracksRes := fun _ => none, persistRes := .otherError }).result =
      .ok { name := "mix", url := "https://open.spotify.com/playlist/p1" } ∧
    (createPlaylist
        { uris := ["spotify:track:x"], name := "mix", isPublic := false, description := "" }
        { userId := "user1", createPlaylistRes := .ok "p1",
          addTracksRes := fun _ => none, persistRes := .knownRequestError }).result =
      .error
        { code := "INTERNAL_SERVER_ERROR",
          message := "Unable to save playlist mix to the database, but the it's available at https://open.spotify.com/playlist/p1.",
          causeMessages := [] } := by
  constructor
  · exact (createPlaylist_persistence_failure
      { uris := ["spotify:track:x"], name := "mix", isPublic := false, description := "" }
      { userId := "user1", createPlaylistRes := .ok "p1",
        addTracksRes := fun _ => none, persistRes := .otherError }
      "p1" rfl (fun _ _ => rfl)).1 rfl
  · exact (createPlaylist_persistence_failure
      { uris := ["spotify:track:x"], name := "mix", isPublic := false, description := "" }
      { userId := "user1", createPlaylistRes := .ok "p1",
        addTracksRes := fun _ => none, persistRes := .knownRequestError }
      "p1" rfl (fun _ _ => rfl)).2.2 rfl

/-! ### getPlaylists -/

/-- A row of the Prisma `playlist` table, in `createdAt`-descending
order within the store list. -/
structure DbPlaylist where
  id : String
  spotifyId : String
  createdBy : String
  deriving Repr, DecidableEq

/-- Input of the `getPlaylists` query (zod: limit 1–100 nullish, cursor
nullish, isCreatorOnly). -/
structure GetPlaylistsInput where
  limit : Option ℕ
  cursor : Option String
  isCreatorOnly : Bool
  deriving Repr, DecidableEq

/-- The fields of a `GET /playlists/{id}` upstream response that the
router reads (`tracks.items[].track.id` flattened to `trackIds`). -/
structure SpotifyPlaylistResponse where
  id : String
  name : String
  description : String
  images : List Image
  trackIds : List String
  deriving Repr

/-- Environment of one `getPlaylists` resolve: the ownership store in
`createdAt`-descending order, the session user, the parsed body of each
playlist fetch, and the parsed body of each audio-features request
(`none` for an error-shaped body without `audio_features`). -/
structure GetPlaylistsEnv where
  db : List DbPlaylist
  sessionUserId : String
  playlistRes : String → SpotifyPlaylistResponse
  audioFeaturesRes : List String → Option (List RawAudioFeatures)

/-- An item of the `getPlaylists` output page. -/
structure Playlist where
  id : String
  name : String
  description : String
  image : Option Image
  uri : String
  audioFeatures : AudioFeatures
  deriving Repr

/-- Result of one `getPlaylists` resolve, plus the `take` count the
local store was asked for. -/
structure GetPlaylistsResult where
  items : List Playlist
  total : ℕ
  nextCursor : Option String
  storeTake : ℕ
  deriving Repr

/-- The `where` filter of the store queries: restricted to
`createdBy = session.user.id` when `isCreatorOnly`, unrestricted
otherwise. -/
def recordFilter (input : GetPlaylistsInput) (env : GetPlaylistsEnv) :
    DbPlaylist → Bool :=
  fun p => if input.isCreatorOnly then p.createdBy == env.sessionUserId else true

/-- Modelled from the spec: the Prisma client is not under the provided
sources.  `findMany({take, cursor, orderBy, where})` over the ordered
store: filter, start at the cursor record (inclusive) when given, and
return the first `take` records. -/
def findMany (db : List DbPlaylist) (takeN : ℕ) (cursor : Option String)
    (filt : DbPlaylist → Bool) : List DbPlaylist :=
  let filtered := db.filter filt
  let fromCursor := match cursor with
    | none => filtered
    | some c => filtered.dropWhile (fun p => !(p.id == c))
  fromCursor.take takeN

/-- The ordered store records matching a `getPlaylists` call's filter,
starting at its cursor: the list the page is a prefix of. -/
def matchingRecords (input : GetPlaylistsInput) (env : GetPlaylistsEnv) :
    List DbPlaylist :=
  match input.cursor with
  | none => env.db.filter (recordFilter input env)
  | some c => (env.db.filter (recordFilter input env)).dropWhile (fun p => !(p.id == c))

/-- `findMany` returns the first `take` matching-from-cursor records. -/
theorem findMany_eq_take (input : GetPlaylistsInput) (env : GetPlaylistsEnv) (takeN : ℕ) :
    findMany env.db takeN input.cursor (recordFilter input env) =
      (matchingRecords input env).take takeN := by
  cases hcur : input.cursor <;> simp only [findMany, matchingRecords, hcur]

/-- The per-record assembly of a page item: fetch the upstream playlist,
fetch its audio features in sequential batches of up to 100 track ids,
substitute the all-zero sentinel for an error-shaped batch, scale the
0–1 features by 100 (the sentinel stays all-zero), aggregate, and build
the Playlist shape with `images[1]` and the canonical web URI. -/
def assemblePlaylist (env : GetPlaylistsEnv) (p : DbPlaylist) : Playlist :=
  let sp := env.playlistRes p.spotifyId
  let indices := range 0 (sp.trackIds.length - 1) 100
  let responses := indices.map (fun index =>
    env.audioFeaturesRes ((sp.trackIds.drop index).take 100))
  let afs := (responses.map (fun r =>
    r.getD [{ danceability := 0, tempo := 0, valence := 0, energy := 0 }])).flatten
  let avg := calculateAverageAudioFeatures (afs.map (fun track =>
    { danceability := track.danceability * 100,
      energy := track.energy * 100,
      tempo := track.tempo,
      valence := track.valence * 100 }))
  { id := sp.id, name := sp.name, description := sp.description,
    image := sp.images[1]?, uri := playlistUrlOf sp.id, audioFeatures := avg }

/-- The `getPlaylists` resolver: default the limit to 50, count the
matching records, fetch `limit + 1` records from the store, pop the
extra record (when present) into the next cursor, and assemble the
remaining page into Playlists. -/
def getPlaylists (input : GetPlaylistsInput) (env : GetPlaylistsEnv) :
    GetPlaylistsResult :=
  let limit := input.limit.getD 50
  let total := (env.db.filter (recordFilter input env)).length
  let fetched := findMany env.db (limit + 1) input.cursor (recordFilter input env)
  let popped := if limit < fetched.length then fetched.dropLast else fetched
  let nextCursor := if limit < fetched.length then
      fetched.getLast?.map (fun p => p.id)
    else none
  { items := popped.map (assemblePlaylist env),
    total := total,
    nextCursor := nextCursor,
    storeTake := limit + 1 }

/-- C3: with limit `L` the store is asked for `L + 1` records; when
`L + 1` matching records come back the page has `L` items and the
`(L+1)`-th record's id becomes `nextCursor`; with at most `L` matching
records the page is all of them and `nextCursor` is absent. -/
theorem getPlaylists_pagination (input : GetPlaylistsInput) (env : GetPlaylistsEnv)
    (L : ℕ) (hL : input.limit = some L) :
    (getPlaylists input env).storeTake = L + 1 ∧
    (L + 1 ≤ (matchingRecords input env).length →
      (getPlaylists input env).items.length = L ∧
      (getPlaylists input env).nextCursor =
        ((matchingRecords input env)[L]?).map (fun p => p.id) ∧
      (getPlaylists input env).nextCursor ≠ none) ∧
    ((matchingRecords input env).length ≤ L →
      (getPlaylists input env).nextCursor = none ∧
      (getPlaylists input env).items.length = (matchingRecords input env).length) := by
  have hfetch : findMany env.db (L + 1) input.cursor (recordFilter input env) =
      (matchingRecords input env).take (L + 1) := findMany_eq_take input env (L + 1)
  refine ⟨by simp [getPlaylists, hL], ?_, ?_⟩
  · intro hge
    have hlen : ((matchingRecords input env).take (L + 1)).length = L + 1 := by
      rw [List.length_take]
      omega
    have hcond : L < ((matchingRecords input env).take (L + 1)).length := by
      rw [hlen]
      omega
    have hB : (getPlaylists input env).nextCursor =
        ((matchingRecords input env)[L]?).map (fun p => p.id) := by
      simp only [getPlaylists, hL, Option.getD_some, hfetch]
      rw [if_pos hcond, List.getLast?_eq_getElem?, hlen]
      simp only [Nat.add_sub_cancel]
      rw [List.getElem?_take, if_pos (Nat.lt_succ_self L)]
    refine ⟨?_, hB, ?_⟩
    · simp only [getPlaylists, hL, Option.getD_some, hfetch]
      rw [if_pos hcond, List.length_map, List.length_dropLast, hlen]
      omega
    · have hLlt : L < (matchingRecords input env).length := by omega
      have hsome : (matchingRecords input env)[L]? =
          some ((matchingRecords input env).get ⟨L, hLlt⟩) :=
        List.getElem?_eq_getElem hLlt
      rw [hB, hsome]
      simp
  · intro hle
    have hall : (matchingRecords input env).take (L + 1) = matchingRecords input env :=
      List.take_of_length_le (by omega)
    have hncond : ¬ L < ((matchingRecords input env).take (L + 1)).length := by
      rw [hall]
      omega
    constructor
    · simp only [getPlaylists, hL, Option.getD_some, hfetch]
      rw [if_neg hncond]
    · simp only [getPlaylists, hL, Option.getD_some, hfetch]
      rw [if_neg hncond, List.length_map, hall]

set_option maxRecDepth 8000 in
/-- Witness for C3: limit 20 with 21 matching records returns 20 items
and the 21st record's id as nextCursor; with exactly 20 matching
records nextCursor is absent. -/
theorem getPlaylists_pagination_witness :
    (getPlaylists { limit := some 20, cursor := none, isCreatorOnly := false }
      { db := (List.range 21).map (fun i =>
          { id := "id" ++ toString i, spotifyId := "s", createdBy := "u" }),
        sessionUserId := "u",
        playlistRes := fun _ =>
          { id := "p", name := "n", description := "", images := [], trackIds := [] },
        audioFeaturesRes := fun _ => none }).storeTake = 21 ∧
    (getPlaylists { limit := some 20, cursor := none, isCreatorOnly := false }
      { db := (List.range 21).map (fun i =>
          { id := "id" ++ toString i, spotifyId := "s", createdBy := "u" }),
        sessionUserId := "u",
        playlistRes := fun _ =>
          { id := "p", name := "n", description := "", images := [], trackIds := [] },
        audioFeaturesRes := fun _ => none }).items.length = 20 ∧
    (getPlaylists { limit := some 20, cursor := none, isCreatorOnly := false }
      { db := (List.range 21).map (fun i =>
          { id := "id" ++ toString i, spotifyId := "s", createdBy := "u" }),
        sessionUserId := "u",
        playlistRes := fun _ =>
          { id := "p", name := "n", description := "", images := [], trackIds := [] },
        audioFeaturesRes := fun _ => none }).nextCursor = some "id20" ∧
    (getPlaylists { limit := some 20, cursor := none, isCreatorOnly := false }
      { db := (List.range 20).map (fun i =>
          { id := "id" ++ toString i, spotifyId := "s", createdBy := "u" }),
        sessionUserId := "u",
        playlistRes := fun _ =>
          { id := "p", name := "n", description := "", images := [], trackIds := [] },
        audioFeaturesRes := fun _ => none }).nextCursor = none := by
  obtain ⟨hA, hB, _⟩ := getPlaylists_pagination
    { limit := some 20, cursor := none, isCreatorOnly := false }
    { db := (List.range 21).map (fun i =>
        { id := "id" ++ toString i, spotifyId := "s", createdBy := "u" }),
      sessionUserId := "u",
      playlistRes := fun _ =>
        { id := "p", name := "n", description := "", images := [], trackIds := [] },
      audioFeaturesRes := fun _ => none } 20 rfl
  obtain ⟨h1, h2, _⟩ := hB (by decide)
  obtain ⟨_, _, hC⟩ := getPlaylists_pagination
    { limit := some 20, cursor := none, isCreatorOnly := false }
    { db := (List.range 20).map (fun i =>
        { id := "id" ++ toString i, spotifyId := "s", createdBy := "u" }),
      sessionUserId := "u",
      playlistRes := fun _ =>
        { id := "p", name := "n", description := "", images := [], trackIds := [] },
      audioFeaturesRes := fun _ => none } 20 rfl
  refine ⟨hA, h1, ?_, (hC (by decide)).1⟩
  rw [h2]
  decide

/-- C10: a null / omitted limit behaves exactly as limit 50, and the
store is asked for 51 records. -/
theorem getPlaylists_default_limit (env : GetPlaylistsEnv)
    (cursor : Option String) (isCreatorOnly : Bool) :
    getPlaylists { limit := none, cursor := cursor, isCreatorOnly := isCreatorOnly } env =
      getPlaylists { limit := some 50, cursor := cursor, isCreatorOnly := isCreatorOnly } env ∧
    (getPlaylists { limit := none, cursor := cursor, isCreatorOnly := isCreatorOnly }
        env).storeTake = 51 :=
  ⟨rfl, rfl⟩

end TinyMixtape
